import Mathlib

/-!
A shallow embedding of the Frogger game-state engine (the complete iteration
of the repository's source, the one containing the level / highscore /
river / plank / crocodile / lady-frog logic).  Positions, radii, speeds and
times are modelled as rationals; scores are integers (the code only ever
adds the integer literals 10, 50 and 200 + 50 to them and resets them to 0).
Booleans, lists and optional entities are modelled directly.  Each Lean
definition mirrors one function or one named local constant of the source.
-/

namespace Frogger

/-- A position on the canvas (the source's `Pos` type). -/
structure Pos where
  x : ℚ
  y : ℚ
deriving Repr, DecidableEq

/-- The source's `Frog` type (also used for the lady frog). -/
structure Frog where
  id : String
  pos : Pos
  createTime : ℚ
  radius : ℚ
deriving Repr, DecidableEq

/-- The source's `Car` type. -/
structure Car where
  id : String
  pos : Pos
  createTime : ℚ
  radius : ℚ
  direction : ℕ
  speed : ℚ
deriving Repr, DecidableEq

/-- The source's `Plank` type. -/
structure Plank where
  id : String
  pos : Pos
  createTime : ℚ
  radiusX : ℚ
  radiusY : ℚ
  direction : ℕ
  speed : ℚ
deriving Repr, DecidableEq

/-- The source's `Crocodile` type. -/
structure Crocodile where
  id : String
  pos : Pos
  createTime : ℚ
  radiusX : ℚ
  radiusY : ℚ
  direction : ℕ
  speed : ℚ
deriving Repr, DecidableEq

/-- The source's `Target` type (a goal slot). -/
structure Target where
  id : String
  pos : Pos
  createTime : ℚ
  radius : ℚ
deriving Repr, DecidableEq

/-- The source's `River` type (the static hazard strip). -/
structure River where
  id : String
  pos : Pos
  createTime : ℚ
  radiusX : ℚ
  radiusY : ℚ
deriving Repr, DecidableEq

/-- The source's `State` type: the whole game state. -/
structure State where
  time : ℚ
  frog : Frog
  ladyFrog : Option Frog
  cars : List Car
  planks : List Plank
  targets : List Target
  crocodile : Option Crocodile
  river : River
  carCount : ℕ
  plankCount : ℕ
  score : ℤ
  highscore : ℤ
  level : ℕ
  multiplier : ℚ
  carSpeed : List ℚ
  carNum : List ℕ
  plankNum : List ℕ
  frogOnPlank : List Plank
  ladyFrogOnPlank : List Plank
  hasFrogTarget : List Target
  frogPicksUpLadyFrog : Bool
  frogInTargetCount : ℕ
  passedLevel : Bool
  gameOver : Bool
deriving Repr, DecidableEq

/-- The source's `Action` union: the discriminated actions fed to the
reducer.  `CreateCar` carries only a row and a direction in this iteration;
`CreatePlank` and `CreateCrocodile` carry a `radiusY` that the reducer
ignores (it passes the literal 10 instead). -/
inductive Action where
  | tick (elapsed : ℚ)
  | move (x y : ℚ) (addScore : Bool)
  | createCar (row_no : ℕ) (direction : ℕ)
  | createPlank (row_no : ℕ) (direction : ℕ) (speed radiusX radiusY : ℚ)
  | createTarget (n : ℕ)
  | createCrocodile (row_no : ℕ) (direction : ℕ) (speed radiusX radiusY : ℚ)
  | createLadyFrog
deriving Repr, DecidableEq

/-- `createCrocodile` from the source: placed just inside the row depending
on direction, with the state's time as creation time. -/
def createCrocodile (s : State) (row_number : ℕ) (direction : ℕ)
    (speed radiusX radiusY : ℚ) : Crocodile :=
  { id := "crocodile"
    pos := { x := if direction = 0 then 600 * (direction : ℚ)
                  else 600 * (direction : ℚ) - radiusX * 2
             y := 10 + (row_number : ℚ) * 40 }
    createTime := s.time
    radiusX := radiusX
    radiusY := radiusY
    direction := direction
    speed := speed }

/-- `createRiver` from the source: the fixed hazard strip. -/
def createRiver : River :=
  { id := "river", pos := { x := 0, y := 40 }, createTime := 0,
    radiusX := 300, radiusY := 120 }

/-- `createFrog` from the source: a frog (or lady frog) of radius 10 at the
given position. -/
def createFrog (x y : ℚ) (isLadyFrog : Bool) : Frog :=
  { id := if isLadyFrog then "ladyFrog" else "frog"
    pos := { x := x, y := y }
    createTime := 0
    radius := 10 }

/-- `createCar` from the source: id minted from the car counter, position
from row and direction, speed from the per-row speed table scaled by the
difficulty multiplier. -/
def createCar (s : State) (row_number : ℕ) (direction : ℕ) : Car :=
  { id := "car" ++ toString s.carCount
    pos := { x := if direction = 0 then 600 * (direction : ℚ)
                  else 600 * (direction : ℚ) - 20
             y := 290 + (row_number : ℚ) * 40 }
    createTime := s.time
    radius := 10
    direction := direction
    speed := s.carSpeed.getD (row_number - 1) 0 * s.multiplier }

/-- `createPlank` from the source. -/
def createPlank (s : State) (row_number : ℕ) (direction : ℕ)
    (speed radiusX radiusY : ℚ) : Plank :=
  { id := "plank" ++ toString s.plankCount
    pos := { x := if direction = 0 then 600 * (direction : ℚ)
                  else 600 * (direction : ℚ) - radiusX * 2
             y := 10 + (row_number : ℚ) * 40 }
    createTime := s.time
    radiusX := radiusX
    radiusY := radiusY
    direction := direction
    speed := speed }

/-- `createTarget` from the source: the n-th goal slot. -/
def createTarget (n : ℕ) : Target :=
  { id := "target" ++ toString (n + 1)
    pos := { x := 120 * (n : ℚ) + 40, y := 0 }
    createTime := 0
    radius := 20 }

/-- `initialState` from the source. -/
def initialState : State :=
  { time := 0
    frog := createFrog 300 580 false
    ladyFrog := none
    cars := []
    planks := []
    targets := []
    crocodile := none
    river := createRiver
    carCount := 0
    plankCount := 0
    score := 0
    highscore := 0
    level := 1
    multiplier := 1.05
    carSpeed := [1, 1, 1.3, 1, 1, 1]
    carNum := [2, 2, 1, 3, 3, 2]
    plankNum := [2, 3, 4, 2, 3, 3]
    frogOnPlank := []
    ladyFrogOnPlank := []
    hasFrogTarget := []
    frogPicksUpLadyFrog := false
    frogInTargetCount := 0
    passedLevel := false
    gameOver := false }

/-- `resetState` from the source: full reset on game over, next-level state
on a passed level, otherwise the state unchanged. -/
def resetState (s : State) : State :=
  if s.gameOver = true then
    { s with
      time := 0
      frog := createFrog 300 580 false
      ladyFrog := none
      cars := []
      planks := []
      targets := []
      crocodile := none
      river := createRiver
      carCount := 0
      plankCount := 0
      score := 0
      level := 1
      multiplier := 1.05
      carSpeed := [1, 1, 1.3, 1, 1, 1]
      carNum := [2, 2, 1, 3, 3, 2]
      plankNum := [2, 3, 4, 2, 3, 3]
      frogOnPlank := []
      ladyFrogOnPlank := []
      hasFrogTarget := []
      frogPicksUpLadyFrog := false
      frogInTargetCount := 0
      passedLevel := false
      gameOver := false }
  else if s.passedLevel = true then
    { s with
      frog := createFrog 300 580 false
      ladyFrog := none
      cars := []
      planks := []
      targets := []
      crocodile := none
      carCount := 0
      plankCount := 0
      level := s.level + 1
      carSpeed := [
        s.carSpeed.getD 0 0 * s.multiplier,
        s.carSpeed.getD 1 0 * s.multiplier,
        s.carSpeed.getD 2 0 * s.multiplier,
        s.carSpeed.getD 3 0 * s.multiplier,
        s.carSpeed.getD 4 0 * s.multiplier,
        s.carSpeed.getD 5 0 * s.multiplier]
      carNum := if s.level = 5
        then [2 + 1, 2 + 1, 1 + 1, 3 + 1, 3 + 1, 2 + 1]
        else [2, 2, 1, 3, 3, 2]
      plankNum := if s.level = 5
        then [2, 3, 4 - 1, 2 - 1, 3, 3 - 1]
        else [2, 3, 4, 2, 3, 3]
      frogOnPlank := []
      ladyFrogOnPlank := []
      hasFrogTarget := []
      frogPicksUpLadyFrog := false
      frogInTargetCount := 0
      passedLevel := false }
  else s

/-- `wrap` from the source: circular entities wrap when their leading edge
crosses either side of the 600-unit canvas. -/
def wrap (x radius : ℚ) : ℚ :=
  if x + radius < 0 then x + 600 else if x + radius > 600 then x - 600 else x

/-- `wrapLadyFrog` from the source: the lady frog wraps only on exiting to
the right. -/
def wrapLadyFrog (x radius : ℚ) : ℚ :=
  if x - radius > 600 then x - 620 else x

/-- `wrapPlank` from the source: planks and the crocodile wrap only once
their full extent has left the canvas. -/
def wrapPlank (xPlank radiusPlank : ℚ) : ℚ :=
  if xPlank + radiusPlank * 2 < 0 then xPlank + 600 + radiusPlank
  else if xPlank > 600 then xPlank - 600 - radiusPlank
  else xPlank

/-- `moveCar` from the source. -/
def moveCar (o : Car) (direction : ℕ) (speed : ℚ) : Car :=
  { o with
    pos := { x := if direction = 1 then wrap (o.pos.x - speed) o.radius
                  else wrap (o.pos.x + speed) o.radius
             y := o.pos.y } }

/-- `movePlankOrCrocodile` from the source, at type `Plank` (the source
uses one function for both shapes; the embedding splits it by type with the
identical body). -/
def movePlank (o : Plank) (direction : ℕ) (speed : ℚ) : Plank :=
  { o with
    pos := { x := if direction = 1 then wrapPlank (o.pos.x - speed) o.radiusX
                  else wrapPlank (o.pos.x + speed) o.radiusX
             y := o.pos.y } }

/-- `movePlankOrCrocodile` from the source, at type `Crocodile`. -/
def moveCrocodile (o : Crocodile) (direction : ℕ) (speed : ℚ) : Crocodile :=
  { o with
    pos := { x := if direction = 1 then wrapPlank (o.pos.x - speed) o.radiusX
                  else wrapPlank (o.pos.x + speed) o.radiusX
             y := o.pos.y } }

/-- `moveFrog` from the source: carried motion of the player frog (no
wrap). -/
def moveFrog (o : Frog) (direction : ℕ) (speed : ℚ) : Frog :=
  { o with
    pos := { x := if direction = 1 then o.pos.x - speed else o.pos.x + speed
             y := o.pos.y } }

/-- `moveLadyFrog` from the source: fixed rightward travel with the
one-directional wrap. -/
def moveLadyFrog (o : Frog) (speed : ℚ) : Frog :=
  { o with pos := { x := wrapLadyFrog (o.pos.x + speed) o.radius, y := o.pos.y } }

/-- `frogCollided` from the source (a local of `handleCollisions`): the
box overlap test of the frog against a car, a target or the lady frog,
taking the other object's position and radius. -/
def frogCollided (f : Frog) (opos : Pos) (oradius : ℚ) : Bool :=
  decide (|f.pos.x - (opos.x + oradius)| < f.radius + oradius) &&
  decide (|f.pos.y - (opos.y + oradius)| < f.radius + oradius)

/-- `frogCollidedPlankOrRiver` from the source (a local of
`handleCollisions`): the box overlap test of a frog against a plank or the
river. -/
def frogCollidedPlankOrRiver (f : Frog) (opos : Pos) (oradiusX oradiusY : ℚ) : Bool :=
  decide (|f.pos.x - (opos.x + oradiusX)| < f.radius + oradiusX) &&
  decide (|f.pos.y - (opos.y + oradiusY)| < f.radius + oradiusY)

/-- The local `frogCollideCar` of `handleCollisions`: the frog overlaps
some car. -/
def frogCollideCarOf (s : State) : Bool :=
  decide (0 < (s.cars.filter (fun r => frogCollided s.frog r.pos r.radius)).length)

/-- The local `frogCollidePlank` of `handleCollisions`: the planks the
frog overlaps. -/
def frogCollidePlankOf (s : State) : List Plank :=
  s.planks.filter (fun r => frogCollidedPlankOrRiver s.frog r.pos r.radiusX r.radiusY)

/-- The local `ladyFrogOnPlank` of `handleCollisions`: the planks the lady
frog overlaps (empty when there is no lady frog). -/
def ladyFrogOnPlankOf (s : State) : List Plank :=
  match s.ladyFrog with
  | some lf => s.planks.filter (fun r => frogCollidedPlankOrRiver lf r.pos r.radiusX r.radiusY)
  | none => []

/-- The local `frogPicksUpLadyFrog` of `handleCollisions`: the frog
overlaps the lady frog this step. -/
def frogPicksUpLadyFrogNow (s : State) : Bool :=
  match s.ladyFrog with
  | some lf => frogCollided s.frog lf.pos lf.radius
  | none => false

/-- The local `frogCollideRiver` of `handleCollisions`: the frog overlaps
the river, except that any plank under the frog suppresses it. -/
def frogCollideRiverOf (s : State) : Bool :=
  if 0 < (frogCollidePlankOf s).length then false
  else frogCollidedPlankOrRiver s.frog s.river.pos s.river.radiusX s.river.radiusY

/-- The local `frogOutOfBounds` of `handleCollisions`. -/
def frogOutOfBoundsOf (s : State) : Bool :=
  decide (600 < s.frog.pos.x - s.frog.radius) ||
  decide (s.frog.pos.x + s.frog.radius < 0)

/-- The local `hasFrogTarget` of `handleCollisions`: the targets the frog
overlaps. -/
def hasFrogTargetOf (s : State) : List Target :=
  s.targets.filter (fun r => frogCollided s.frog r.pos r.radius)

/-- `handleCollisions` from the source: the atomic state update performed
after the movement phase of a tick. -/
def handleCollisions (s : State) : State :=
  { s with
    frog := if 0 < (hasFrogTargetOf s).length then createFrog 300 580 false else s.frog
    score :=
      if 0 < (hasFrogTargetOf s).length ∧ s.frogPicksUpLadyFrog = true then
        s.score + 200 + 50
      else if 0 < (hasFrogTargetOf s).length ∧ s.frogPicksUpLadyFrog = false then
        s.score + 50
      else s.score
    highscore :=
      if 0 < (hasFrogTargetOf s).length ∧ s.frogPicksUpLadyFrog = true ∧
          (s.highscore ≤ s.score ∨ s.highscore ≤ s.score + 200 + 50) then
        s.score + 200 + 50
      else if 0 < (hasFrogTargetOf s).length ∧ s.frogPicksUpLadyFrog = false ∧
          (s.highscore ≤ s.score ∨ s.highscore ≤ s.score + 50) then
        s.score + 50
      else s.highscore
    hasFrogTarget := hasFrogTargetOf s
    frogOnPlank := frogCollidePlankOf s
    ladyFrogOnPlank := ladyFrogOnPlankOf s
    frogPicksUpLadyFrog :=
      if s.frogPicksUpLadyFrog = true then
        (if 0 < (hasFrogTargetOf s).length then false else s.frogPicksUpLadyFrog)
      else frogPicksUpLadyFrogNow s
    frogInTargetCount :=
      if 0 < (hasFrogTargetOf s).length then s.frogInTargetCount + 1
      else s.frogInTargetCount
    passedLevel :=
      if 0 < (hasFrogTargetOf s).length ∧ s.frogInTargetCount + 1 = 5 then true
      else false
    gameOver := frogCollideCarOf s || frogCollideRiverOf s || frogOutOfBoundsOf s }

/-- The movement phase of `tick` from the source: the record update that
`tick` passes to `handleCollisions`. -/
def moveAll (s : State) (elapsed : ℚ) : State :=
  { s with
    time := elapsed
    cars := s.cars.map (fun e => moveCar e e.direction e.speed)
    planks := s.planks.map (fun e => movePlank e e.direction e.speed)
    frog :=
      match s.frogOnPlank with
      | p :: _ => moveFrog s.frog p.direction p.speed
      | [] => s.frog
    ladyFrog :=
      match s.ladyFrog with
      | some lf =>
        match s.ladyFrogOnPlank with
        | p :: _ => some (moveLadyFrog lf p.speed)
        | [] => some lf
      | none => none
    crocodile :=
      match s.crocodile with
      | some c => some (moveCrocodile c c.direction c.speed)
      | none => none }

/-- `tick` from the source: move every entity, then handle collisions. -/
def tick (s : State) (elapsed : ℚ) : State :=
  handleCollisions (moveAll s elapsed)

/-- `reduceState` from the source: the pure state reducer over the closed
action set. -/
def reduceState (s : State) (e : Action) : State :=
  match e with
  | .move x y addScore =>
    { s with
      frog := { s.frog with pos := { x := s.frog.pos.x + x, y := s.frog.pos.y + y } }
      score := if addScore = true then s.score + 10 else s.score
      highscore :=
        if addScore = true ∧ s.highscore ≤ s.score then s.highscore + 10
        else s.highscore }
  | .createCar row_no direction =>
    { s with
      cars := s.cars ++ [createCar s row_no direction]
      carCount := s.carCount + 1 }
  | .createPlank row_no direction speed radiusX _radiusY =>
    { s with
      planks := s.planks ++ [createPlank s row_no direction speed radiusX 10]
      plankCount := s.plankCount + 1 }
  | .createTarget n =>
    { s with targets := s.targets ++ [createTarget n] }
  | .createCrocodile row_no direction speed radiusX _radiusY =>
    { s with crocodile := some (createCrocodile s row_no direction speed radiusX 10) }
  | .createLadyFrog =>
    { s with ladyFrog := some (createFrog 40 220 true) }
  | .tick elapsed => tick s elapsed

/-- The states reachable from the initial state by reducer applications and
life-cycle resets. -/
inductive Reachable : State → Prop where
  | init : Reachable initialState
  | step (s : State) (a : Action) : Reachable s → Reachable (reduceState s a)
  | reset (s : State) : Reachable s → Reachable (resetState s)

/-- The scoring invariant maintained by the engine: the score is a
non-negative multiple of 10, bounded by the highscore, which is itself a
multiple of 10. -/
def ScoreInv (s : State) : Prop :=
  0 ≤ s.score ∧ s.score ≤ s.highscore ∧ (10 : ℤ) ∣ s.score ∧ (10 : ℤ) ∣ s.highscore

/-- Overwrite the crocodile field of a state. -/
def setCrocodile (s : State) (c : Option Crocodile) : State :=
  { s with crocodile := c }

/-! ### States used as concrete instances in the theorems below -/

/-- A state that has just filled its fifth goal slot at level 5. -/
def levelFiveState : State :=
  { initialState with passedLevel := true, level := 5 }

/-- A state that has just passed level 1. -/
def passedLevelState : State :=
  { initialState with passedLevel := true }

/-- A state in which the game has just been lost with some score history. -/
def gameOverState : State :=
  { initialState with gameOver := true, score := 60, highscore := 70 }

/-- A state whose frog stands right on the second goal slot. -/
def goalState : State :=
  { initialState with frog := createFrog 300 10 false, targets := [createTarget 2] }

/-- A plank floating in the first river row. -/
def riverPlank : Plank :=
  { id := "plank0", pos := { x := 460, y := 50 }, createTime := 0,
    radiusX := 70, radiusY := 10, direction := 1, speed := 0 }

/-- A state whose frog stands on a plank inside the river strip. -/
def plankState : State :=
  { initialState with frog := createFrog 530 50 false, planks := [riverPlank] }

/-! ### Theorems -/

/-- C9: each of the three wrap functions (`wrap` for circular hazards,
`wrapPlank` for planks and the crocodile, `wrapLadyFrog` for the bonus
token) returns a position already inside its valid band unchanged. -/
theorem wrap_functions_id_on_band (x radius : ℚ) :
    (0 ≤ x + radius → x + radius ≤ 600 → wrap x radius = x) ∧
    (0 ≤ x + radius * 2 → x ≤ 600 → wrapPlank x radius = x) ∧
    (x - radius ≤ 600 → wrapLadyFrog x radius = x) := by
  refine ⟨fun h1 h2 => ?_, fun h1 h2 => ?_, fun h1 => ?_⟩
  · unfold wrap
    rw [if_neg (by linarith), if_neg (by linarith)]
  · unfold wrapPlank
    rw [if_neg (by linarith), if_neg (by linarith)]
  · unfold wrapLadyFrog
    rw [if_neg (by linarith)]

/-- Concrete instance of `wrap_functions_id_on_band` at the in-band
position 100 with radius 10. -/
theorem wrap_functions_id_on_band_witness :
    wrap 100 10 = 100 ∧ wrapPlank 100 10 = 100 ∧ wrapLadyFrog 100 10 = 100 :=
  ⟨(wrap_functions_id_on_band 100 10).1 (by norm_num) (by norm_num),
   (wrap_functions_id_on_band 100 10).2.1 (by norm_num) (by norm_num),
   (wrap_functions_id_on_band 100 10).2.2 (by norm_num)⟩

/-- C8: resetting a game-over state returns the initial configuration in
every field except `highscore`, which keeps its pre-reset value. -/
theorem resetState_gameOver_full_reset (s : State) (h : s.gameOver = true) :
    resetState s = { initialState with highscore := s.highscore } := by
  unfold resetState
  rw [if_pos h]
  rfl

/-- Concrete instance of `resetState_gameOver_full_reset` on a lost game
with score 60 and highscore 70. -/
theorem resetState_gameOver_full_reset_witness :
    gameOverState.gameOver = true ∧
    resetState gameOverState = { initialState with highscore := gameOverState.highscore } :=
  ⟨rfl, resetState_gameOver_full_reset gameOverState rfl⟩

/-- C7 (counterexample): at the level-5 transition the plank spawn counts
are not increased and not left unchanged: row 3 drops from 4 planks to 3
(the whole table goes from `[2, 3, 4, 2, 3, 3]` to `[2, 3, 3, 1, 3, 2]`). -/
theorem resetState_plankNum_decreases_at_level_five :
    levelFiveState.passedLevel = true ∧ levelFiveState.gameOver = false ∧
    levelFiveState.level = 5 ∧
    levelFiveState.plankNum = [2, 3, 4, 2, 3, 3] ∧
    (resetState levelFiveState).plankNum = [2, 3, 3, 1, 3, 2] ∧
    (resetState levelFiveState).plankNum.getD 2 0 < levelFiveState.plankNum.getD 2 0 := by
  refine ⟨rfl, rfl, rfl, rfl, ?_, ?_⟩ <;> decide

/-- C7 (amended): resetting a passed-level (non-game-over) state increments
the level, multiplies each of the six per-row car speeds by the multiplier,
empties the car/plank/target collections, clears the crocodile and the lady
frog, re-centers the frog at (300, 580), keeps `score` and `highscore`, and
sets the car spawn counts to the base table plus one per row when leaving
level 5 and to the fixed base table otherwise, while the plank spawn counts
go to the base table minus one in rows 3, 4 and 6 when leaving level 5 and
to the fixed base table otherwise. -/
theorem resetState_passedLevel_next_level (s : State) (a b c d e f : ℚ)
    (h1 : s.passedLevel = true) (h2 : s.gameOver = false)
    (hcs : s.carSpeed = [a, b, c, d, e, f]) :
    (resetState s).level = s.level + 1 ∧
    (resetState s).carSpeed =
      [a * s.multiplier, b * s.multiplier, c * s.multiplier,
       d * s.multiplier, e * s.multiplier, f * s.multiplier] ∧
    (resetState s).cars = [] ∧
    (resetState s).planks = [] ∧
    (resetState s).targets = [] ∧
    (resetState s).crocodile = none ∧
    (resetState s).ladyFrog = none ∧
    (resetState s).frog.pos = ⟨300, 580⟩ ∧
    (resetState s).score = s.score ∧
    (resetState s).highscore = s.highscore ∧
    (resetState s).carNum =
      (if s.level = 5 then [3, 3, 2, 4, 4, 3] else [2, 2, 1, 3, 3, 2]) ∧
    (resetState s).plankNum =
      (if s.level = 5 then [2, 3, 3, 1, 3, 2] else [2, 3, 4, 2, 3, 3]) := by
  have hg : ¬(s.gameOver = true) := by rw [h2]; simp
  unfold resetState
  rw [if_neg hg, if_pos h1, hcs]
  refine ⟨rfl, rfl, rfl, rfl, rfl, rfl, rfl, rfl, rfl, rfl, ?_, ?_⟩ <;>
    split_ifs <;> rfl

/-- Concrete instance of `resetState_passedLevel_next_level` on the initial
state with `passedLevel` set. -/
theorem resetState_passedLevel_next_level_witness :
    passedLevelState.passedLevel = true ∧ passedLevelState.gameOver = false ∧
    passedLevelState.carSpeed = [1, 1, 1.3, 1, 1, 1] ∧
    ((resetState passedLevelState).level = passedLevelState.level + 1 ∧
     (resetState passedLevelState).carSpeed =
       [1 * passedLevelState.multiplier, 1 * passedLevelState.multiplier,
        1.3 * passedLevelState.multiplier, 1 * passedLevelState.multiplier,
        1 * passedLevelState.multiplier, 1 * passedLevelState.multiplier] ∧
     (resetState passedLevelState).cars = [] ∧
     (resetState passedLevelState).planks = [] ∧
     (resetState passedLevelState).targets = [] ∧
     (resetState passedLevelState).crocodile = none ∧
     (resetState passedLevelState).ladyFrog = none ∧
     (resetState passedLevelState).frog.pos = ⟨300, 580⟩ ∧
     (resetState passedLevelState).score = passedLevelState.score ∧
     (resetState passedLevelState).highscore = passedLevelState.highscore ∧
     (resetState passedLevelState).carNum =
       (if passedLevelState.level = 5 then [3, 3, 2, 4, 4, 3] else [2, 2, 1, 3, 3, 2]) ∧
     (resetState passedLevelState).plankNum =
       (if passedLevelState.level = 5 then [2, 3, 3, 1, 3, 2] else [2, 3, 4, 2, 3, 3])) :=
  ⟨rfl, rfl, rfl,
   resetState_passedLevel_next_level passedLevelState 1 1 1.3 1 1 1 rfl rfl rfl⟩

/-- The collision handler never lowers the highscore. -/
theorem handleCollisions_highscore_mono (s : State) :
    s.highscore ≤ (handleCollisions s).highscore := by
  unfold handleCollisions
  dsimp only
  split_ifs with h1 h2
  · rcases h1.2.2 with h | h <;> linarith
  · rcases h2.2.2 with h | h <;> linarith
  · exact le_refl _

/-- C5: no branch of the reducer decreases the `highscore` field. -/
theorem reduceState_highscore_mono (s : State) (a : Action) :
    s.highscore ≤ (reduceState s a).highscore := by
  cases a with
  | move x y addScore =>
    unfold reduceState
    dsimp only
    split_ifs with h
    · linarith
    · exact le_refl _
  | tick e => exact handleCollisions_highscore_mono (moveAll s e)
  | createCar r d => exact le_refl _
  | createPlank r d sp rx ry => exact le_refl _
  | createTarget n => exact le_refl _
  | createCrocodile r d sp rx ry => exact le_refl _
  | createLadyFrog => exact le_refl _

/-- A filtered list is non-empty exactly when some member of the original
list satisfies the filter. -/
theorem filter_length_pos_iff {α : Type} (l : List α) (p : α → Bool) :
    0 < (l.filter p).length ↔ ∃ a ∈ l, p a = true := by
  simp [List.length_pos_iff_exists_mem, List.mem_filter]

/-- The movement phase never changes the frog's radius. -/
theorem moveAll_frog_radius (s : State) (e : ℚ) :
    (moveAll s e).frog.radius = s.frog.radius := by
  unfold moveAll
  cases s.frogOnPlank <;> rfl

/-- C2: after a tick, `passedLevel` is true exactly when the frog overlaps
a goal slot in the post-movement state and the previous goal-fill counter
plus one is 5; the counter itself rises by exactly one on a goal arrival
(however many targets overlap at once) and is otherwise unchanged. -/
theorem tick_passedLevel_iff (s : State) (e : ℚ) :
    ((tick s e).passedLevel = true ↔
      0 < (hasFrogTargetOf (moveAll s e)).length ∧ s.frogInTargetCount + 1 = 5) ∧
    (tick s e).frogInTargetCount =
      (if 0 < (hasFrogTargetOf (moveAll s e)).length then s.frogInTargetCount + 1
       else s.frogInTargetCount) := by
  have hct : (moveAll s e).frogInTargetCount = s.frogInTargetCount := rfl
  unfold tick handleCollisions
  dsimp only
  rw [hct]
  constructor
  · split_ifs with h
    · exact iff_of_true rfl h
    · exact iff_of_false (by simp) h
  · rfl

/-- C4: a plank under the frog in the post-movement state makes the
river-hazard condition false for that step, so `gameOver` then reduces to
the car collision and out-of-bounds conditions alone. -/
theorem tick_plank_overrides_river (s : State) (e : ℚ)
    (h : 0 < (frogCollidePlankOf (moveAll s e)).length) :
    frogCollideRiverOf (moveAll s e) = false ∧
    ((tick s e).gameOver = true ↔
      frogCollideCarOf (moveAll s e) = true ∨ frogOutOfBoundsOf (moveAll s e) = true) := by
  have h1 : frogCollideRiverOf (moveAll s e) = false := by
    unfold frogCollideRiverOf
    rw [if_pos h]
  refine ⟨h1, ?_⟩
  have h2 : (tick s e).gameOver =
      (frogCollideCarOf (moveAll s e) || frogCollideRiverOf (moveAll s e) ||
        frogOutOfBoundsOf (moveAll s e)) := rfl
  rw [h2, h1]
  simp

/-- Concrete instance of `tick_plank_overrides_river`: the frog rides a
plank inside the river strip and survives the tick. -/
theorem tick_plank_overrides_river_witness :
    0 < (frogCollidePlankOf (moveAll plankState 1)).length ∧
    (frogCollideRiverOf (moveAll plankState 1) = false ∧
     ((tick plankState 1).gameOver = true ↔
       frogCollideCarOf (moveAll plankState 1) = true ∨
       frogOutOfBoundsOf (moveAll plankState 1) = true)) := by
  have h : 0 < (frogCollidePlankOf (moveAll plankState 1)).length := by
    norm_num [frogCollidePlankOf, moveAll, plankState, riverPlank, initialState,
      createFrog, movePlank, wrapPlank, frogCollidedPlankOrRiver]
  exact ⟨h, tick_plank_overrides_river plankState 1 h⟩

/-- C1: when the post-movement frog overlaps at least one goal slot, the
tick resets the frog to (300, 580), increments the goal-fill counter by
exactly one, and adds exactly 50 to the score when the bonus flag was
false, or exactly 250 when it was true, in which case the flag is also
cleared. -/
theorem tick_goal_slot_scoring (s : State) (e : ℚ)
    (h : 0 < (hasFrogTargetOf (moveAll s e)).length) :
    (tick s e).frog.pos = ⟨300, 580⟩ ∧
    (tick s e).frogInTargetCount = s.frogInTargetCount + 1 ∧
    (s.frogPicksUpLadyFrog = false → (tick s e).score = s.score + 50) ∧
    (s.frogPicksUpLadyFrog = true →
      (tick s e).score = s.score + 250 ∧ (tick s e).frogPicksUpLadyFrog = false) := by
  have hfl : (moveAll s e).frogPicksUpLadyFrog = s.frogPicksUpLadyFrog := rfl
  have hsc : (moveAll s e).score = s.score := rfl
  have hct : (moveAll s e).frogInTargetCount = s.frogInTargetCount := rfl
  unfold tick handleCollisions
  dsimp only
  rw [hfl, hsc, hct]
  refine ⟨?_, ?_, ?_, ?_⟩
  · rw [if_pos h]
    rfl
  · rw [if_pos h]
  · intro hf
    rw [hf, if_neg (by simp), if_pos ⟨h, rfl⟩]
  · intro hf
    rw [hf]
    constructor
    · rw [if_pos ⟨h, rfl⟩]
      omega
    · rw [if_pos rfl, if_pos h]

/-- Concrete instance of `tick_goal_slot_scoring`: a frog standing on the
second goal slot scores and is reset. -/
theorem tick_goal_slot_scoring_witness :
    0 < (hasFrogTargetOf (moveAll goalState 1)).length ∧
    ((tick goalState 1).frog.pos = ⟨300, 580⟩ ∧
     (tick goalState 1).frogInTargetCount = goalState.frogInTargetCount + 1 ∧
     (goalState.frogPicksUpLadyFrog = false →
       (tick goalState 1).score = goalState.score + 50) ∧
     (goalState.frogPicksUpLadyFrog = true →
       (tick goalState 1).score = goalState.score + 250 ∧
       (tick goalState 1).frogPicksUpLadyFrog = false)) := by
  have h : 0 < (hasFrogTargetOf (moveAll goalState 1)).length := by
    norm_num [hasFrogTargetOf, moveAll, goalState, initialState, createFrog,
      createTarget, frogCollided]
  exact ⟨h, tick_goal_slot_scoring goalState 1 h⟩

/-- C3: after a tick, `gameOver` holds exactly when the post-movement frog
overlaps some car, or overlaps the river with no plank underneath, or its
horizontal extent lies entirely outside the 0..600 canvas. -/
theorem tick_gameOver_characterization (s : State) (e : ℚ) (hr : 0 ≤ s.frog.radius) :
    (tick s e).gameOver = true ↔
      (∃ c ∈ (moveAll s e).cars, frogCollided (moveAll s e).frog c.pos c.radius = true) ∨
      (frogCollidedPlankOrRiver (moveAll s e).frog (moveAll s e).river.pos
          (moveAll s e).river.radiusX (moveAll s e).river.radiusY = true ∧
        ¬∃ p ∈ (moveAll s e).planks,
          frogCollidedPlankOrRiver (moveAll s e).frog p.pos p.radiusX p.radiusY = true) ∨
      (∀ t : ℚ, (moveAll s e).frog.pos.x - (moveAll s e).frog.radius ≤ t →
        t ≤ (moveAll s e).frog.pos.x + (moveAll s e).frog.radius →
        t < 0 ∨ 600 < t) := by
  have hr' : 0 ≤ (moveAll s e).frog.radius := by
    rw [moveAll_frog_radius]
    exact hr
  have hgo : (tick s e).gameOver =
      (frogCollideCarOf (moveAll s e) || frogCollideRiverOf (moveAll s e) ||
        frogOutOfBoundsOf (moveAll s e)) := rfl
  set m := moveAll s e with hm
  have hcar : frogCollideCarOf m = true ↔
      ∃ c ∈ m.cars, frogCollided m.frog c.pos c.radius = true := by
    simp [frogCollideCarOf, List.length_pos_iff_exists_mem, List.mem_filter]
  have hplank : 0 < (frogCollidePlankOf m).length ↔
      ∃ p ∈ m.planks, frogCollidedPlankOrRiver m.frog p.pos p.radiusX p.radiusY = true := by
    simp [frogCollidePlankOf, List.length_pos_iff_exists_mem, List.mem_filter]
  have hriver : frogCollideRiverOf m = true ↔
      (frogCollidedPlankOrRiver m.frog m.river.pos m.river.radiusX m.river.radiusY = true ∧
        ¬∃ p ∈ m.planks, frogCollidedPlankOrRiver m.frog p.pos p.radiusX p.radiusY = true) := by
    unfold frogCollideRiverOf
    split_ifs with h
    · simp [hplank.mp h]
    · have hnp : ¬∃ p ∈ m.planks,
          frogCollidedPlankOrRiver m.frog p.pos p.radiusX p.radiusY = true :=
        fun hex => h (hplank.mpr hex)
      simp [hnp]
  have hoob : frogOutOfBoundsOf m = true ↔
      (∀ t : ℚ, m.frog.pos.x - m.frog.radius ≤ t → t ≤ m.frog.pos.x + m.frog.radius →
        t < 0 ∨ 600 < t) := by
    unfold frogOutOfBoundsOf
    simp only [Bool.or_eq_true, decide_eq_true_eq]
    constructor
    · rintro (h | h) t ht1 ht2
      · right
        linarith
      · left
        linarith
    · intro h
      by_contra hc
      push_neg at hc
      obtain ⟨h1, h2⟩ := hc
      rcases h (max (m.frog.pos.x - m.frog.radius) 0) (le_max_left _ _)
          (max_le (by linarith) h2) with h3 | h3
      · have h4 := le_max_right (m.frog.pos.x - m.frog.radius) (0 : ℚ)
        linarith
      · have h4 : max (m.frog.pos.x - m.frog.radius) (0 : ℚ) ≤ 600 :=
          max_le h1 (by norm_num)
        linarith
  rw [hgo]
  simp only [Bool.or_eq_true]
  rw [hcar, hriver, hoob]
  exact or_assoc

/-- Concrete instance of `tick_gameOver_characterization` at the initial
state. -/
theorem tick_gameOver_characterization_witness :
    0 ≤ initialState.frog.radius ∧
    ((tick initialState 1).gameOver = true ↔
      (∃ c ∈ (moveAll initialState 1).cars,
        frogCollided (moveAll initialState 1).frog c.pos c.radius = true) ∨
      (frogCollidedPlankOrRiver (moveAll initialState 1).frog
          (moveAll initialState 1).river.pos (moveAll initialState 1).river.radiusX
          (moveAll initialState 1).river.radiusY = true ∧
        ¬∃ p ∈ (moveAll initialState 1).planks,
          frogCollidedPlankOrRiver (moveAll initialState 1).frog p.pos
            p.radiusX p.radiusY = true) ∨
      (∀ t : ℚ,
        (moveAll initialState 1).frog.pos.x - (moveAll initialState 1).frog.radius ≤ t →
        t ≤ (moveAll initialState 1).frog.pos.x + (moveAll initialState 1).frog.radius →
        t < 0 ∨ 600 < t)) :=
  ⟨by norm_num [initialState, createFrog],
   tick_gameOver_characterization initialState 1 (by norm_num [initialState, createFrog])⟩

/-- The initial state satisfies the scoring invariant. -/
theorem scoreInv_initial : ScoreInv initialState :=
  ⟨le_refl 0, le_refl 0, dvd_zero 10, dvd_zero 10⟩

/-- The collision handler preserves the scoring invariant. -/
theorem scoreInv_handleCollisions (s : State) (h : ScoreInv s) :
    ScoreInv (handleCollisions s) := by
  obtain ⟨h0, hle, hds, hdh⟩ := h
  by_cases hT : 0 < (hasFrogTargetOf s).length
  · cases hFlag : s.frogPicksUpLadyFrog with
    | false =>
      have hSc : (handleCollisions s).score = s.score + 50 := by
        simp [handleCollisions, hT, hFlag]
      by_cases hD : s.highscore ≤ s.score ∨ s.highscore ≤ s.score + 50
      · have hHs : (handleCollisions s).highscore = s.score + 50 := by
          simp [handleCollisions, hT, hFlag, hD]
        refine ⟨?_, ?_, ?_, ?_⟩ <;> simp only [hSc, hHs] <;> omega
      · have hHs : (handleCollisions s).highscore = s.highscore := by
          simp [handleCollisions, hT, hFlag, hD]
        have hD2 : ¬s.highscore ≤ s.score + 50 := fun hc => hD (Or.inr hc)
        refine ⟨?_, ?_, ?_, ?_⟩ <;> simp only [hSc, hHs] <;> omega
    | true =>
      have hSc : (handleCollisions s).score = s.score + 200 + 50 := by
        simp [handleCollisions, hT, hFlag]
      by_cases hD : s.highscore ≤ s.score ∨ s.highscore ≤ s.score + 200 + 50
      · have hHs : (handleCollisions s).highscore = s.score + 200 + 50 := by
          simp [handleCollisions, hT, hFlag, hD]
        refine ⟨?_, ?_, ?_, ?_⟩ <;> simp only [hSc, hHs] <;> omega
      · have hHs : (handleCollisions s).highscore = s.highscore := by
          simp [handleCollisions, hT, hFlag, hD]
        have hD2 : ¬s.highscore ≤ s.score + 200 + 50 := fun hc => hD (Or.inr hc)
        refine ⟨?_, ?_, ?_, ?_⟩ <;> simp only [hSc, hHs] <;> omega
  · have hSc : (handleCollisions s).score = s.score := by
      simp [handleCollisions, hT]
    have hHs : (handleCollisions s).highscore = s.highscore := by
      simp [handleCollisions, hT]
    refine ⟨?_, ?_, ?_, ?_⟩ <;> simp only [hSc, hHs] <;> omega

/-- Every reducer branch preserves the scoring invariant. -/
theorem scoreInv_reduceState (s : State) (a : Action) (h : ScoreInv s) :
    ScoreInv (reduceState s a) := by
  obtain ⟨h0, hle, hds, hdh⟩ := h
  cases a with
  | tick e => exact scoreInv_handleCollisions (moveAll s e) ⟨h0, hle, hds, hdh⟩
  | move x y addScore =>
    cases addScore with
    | false => exact ⟨h0, hle, hds, hdh⟩
    | true =>
      have hSc : (reduceState s (.move x y true)).score = s.score + 10 := by
        simp [reduceState]
      by_cases hc : s.highscore ≤ s.score
      · have hHs : (reduceState s (.move x y true)).highscore = s.highscore + 10 := by
          simp [reduceState, hc]
        refine ⟨?_, ?_, ?_, ?_⟩ <;> simp only [hSc, hHs] <;> omega
      · have hHs : (reduceState s (.move x y true)).highscore = s.highscore := by
          simp [reduceState, hc]
        refine ⟨?_, ?_, ?_, ?_⟩ <;> simp only [hSc, hHs] <;> omega
  | createCar r d => exact ⟨h0, hle, hds, hdh⟩
  | createPlank r d sp rx ry => exact ⟨h0, hle, hds, hdh⟩
  | createTarget n => exact ⟨h0, hle, hds, hdh⟩
  | createCrocodile r d sp rx ry => exact ⟨h0, hle, hds, hdh⟩
  | createLadyFrog => exact ⟨h0, hle, hds, hdh⟩

/-- The life-cycle reset preserves the scoring invariant. -/
theorem scoreInv_resetState (s : State) (h : ScoreInv s) : ScoreInv (resetState s) := by
  obtain ⟨h0, hle, hds, hdh⟩ := h
  unfold resetState
  split_ifs with hg hp hl
  · exact ⟨le_refl 0, show (0 : ℤ) ≤ s.highscore by omega, dvd_zero 10, hdh⟩
  · exact ⟨h0, hle, hds, hdh⟩
  · exact ⟨h0, hle, hds, hdh⟩
  · exact ⟨h0, hle, hds, hdh⟩

/-- C6: in every state reachable from the initial state through reducer
applications and life-cycle resets, the highscore bounds the score. -/
theorem reachable_highscore_ge_score (s : State) (h : Reachable s) :
    s.score ≤ s.highscore := by
  have hInv : ScoreInv s := by
    induction h with
    | init => exact scoreInv_initial
    | step s a _ ih => exact scoreInv_reduceState s a ih
    | reset s _ ih => exact scoreInv_resetState s ih
  exact hInv.2.1

/-- Concrete instance of `reachable_highscore_ge_score` at the initial
state. -/
theorem reachable_highscore_ge_score_witness :
    Reachable initialState ∧ initialState.score ≤ initialState.highscore :=
  ⟨Reachable.init, reachable_highscore_ge_score initialState Reachable.init⟩

/-- C10: the crocodile field never influences any other outcome of a tick:
two states that differ only in their crocodile field produce tick results
that differ only in their crocodile field. -/
theorem tick_crocodile_noninterference (s : State) (c1 c2 : Option Crocodile) (e : ℚ) :
    setCrocodile (tick (setCrocodile s c1) e) none =
    setCrocodile (tick (setCrocodile s c2) e) none := by
  rfl

end Frogger
